import Mathlib

/-!
Verification of the javamcp repository's repository-synchronization manager
(`src/javamcp/repositories/manager.py`) and its API indexer / query engine
(`src/javamcp/indexer/indexer.py`, `src/javamcp/indexer/query_engine.py`),
as a shallow embedding in Lean 4.

Python `dict[str, V]` values are embedded as insertion-ordered association
lists (`PyDict V`), matching CPython's documented dict semantics: lookup by
key, assignment to an existing key keeps its position, assignment to a fresh
key appends it at the end, and `pop` removes the key.  All maps in the source
are built from empty dicts by these operations, so keys are never duplicated.
-/

/-- Insertion-ordered string-keyed map, the embedding of a Python `dict`. -/
abbrev PyDict (V : Type) : Type := List (String × V)

/-- Lookup: `d.get(k)` / `d[k]` on a Python dict (first matching key). -/
def dget {V : Type} : PyDict V → String → Option V
  | [], _ => none
  | (k', v) :: rest, k => if k' == k then some v else dget rest k

/-- Lookup with default: `d.get(k, v0)`. -/
def dgetD {V : Type} (d : PyDict V) (k : String) (v0 : V) : V :=
  (dget d k).getD v0

/-- Key membership: `k in d`. -/
def dcontains {V : Type} (d : PyDict V) (k : String) : Bool :=
  (dget d k).isSome

/-- Assignment `d[k] = v`: replace in place when the key exists, else append
the new key at the end, exactly as a Python dict does. -/
def dset {V : Type} : PyDict V → String → V → PyDict V
  | [], k, v => [(k, v)]
  | (k', v') :: rest, k, v =>
      if k' == k then (k', v) :: rest else (k', v') :: dset rest k v

/-- Removal `d.pop(k, None)`: drop every entry with key `k` (the dicts built
by the source never hold a duplicate key, so this is the Python behavior). -/
def dpop {V : Type} (d : PyDict V) (k : String) : PyDict V :=
  d.filter (fun p => p.1 != k)

/-- `defaultdict(list)` append: `d[k].append(x)` materializes `[]` for a
missing key, so the key is appended at the end on first use. -/
def dappend {A : Type} (d : PyDict (List A)) (k : String) (x : A) : PyDict (List A) :=
  dset d k (dgetD d k [] ++ [x])

/-- The value lists of a dict, `d.values()`, in key-insertion order. -/
def dvalues {V : Type} (d : PyDict V) : List V :=
  d.map (fun p => p.2)

/-- Whether `pat` occurs as a contiguous subsequence of a character list. -/
def listContainsSeq (pat : List Char) : List Char → Bool
  | [] => pat.isEmpty
  | c :: t => pat.isPrefixOf (c :: t) || listContainsSeq pat t

/-- Python's `pattern in s` substring test (`"" in s` is always true). -/
def hasSubstr (s pat : String) : Bool :=
  listContainsSeq pat.data s.data

/-- Python's `s.lower()`, character-wise (ASCII case, like the inputs the
source compares). -/
def strLower (s : String) : String :=
  String.mk (s.data.map Char.toLower)

/-- Python's `s.endswith(suffix)`. -/
def strEndsWith (s suffix : String) : Bool :=
  suffix.data.isSuffixOf s.data

/-- Python's `s[:-n]` for `n > 0`: drop the last `n` characters (empty when
`s` is shorter than `n`). -/
def strDropRight (s : String) (n : Nat) : String :=
  String.mk (s.data.take (s.data.length - n))

/-! ## Java entity models (`src/javamcp/models/java_entities.py`) -/

/-- `class JavaAnnotation`: a Java annotation with its parameters. -/
structure JavaAnnotation where
  name : String
  parameters : List (String × String) := []
deriving DecidableEq, Repr

/-- `class JavaDoc`: parsed Javadoc documentation. -/
structure JavaDoc where
  summary : String := ""
  description : String := ""
  params : List (String × String) := []
  returns : String := ""
  throws : List (String × String) := []
  see : List String := []
  since : String := ""
  deprecated : String := ""
  author : List String := []
  examples : List String := []
deriving DecidableEq, Repr

/-- `class JavaParameter`: a method parameter. -/
structure JavaParameter where
  name : String
  type : String
  annots : List JavaAnnotation := []
deriving DecidableEq, Repr

/-- `class JavaField`: a class field. -/
structure JavaField where
  name : String
  type : String
  modifiers : List String := []
  annots : List JavaAnnotation := []
  javadoc : Option JavaDoc := none
  initial_value : Option String := none
deriving DecidableEq, Repr

/-- `class JavaMethod`: a Java method (`annots` embeds the source's
annotation-list field, renamed to fit this file's lexical conventions). -/
structure JavaMethod where
  name : String
  return_type : String
  parameters : List JavaParameter := []
  modifiers : List String := []
  annots : List JavaAnnotation := []
  javadoc : Option JavaDoc := none
  throws : List String := []
  is_constructor : Bool := false
deriving DecidableEq, Repr

/-- `class JavaClass`: a Java class or interface (`extends_` and `annots`
rename the source's `extends` and annotation-list fields, which Lean's
grammar refuses verbatim). -/
structure JavaClass where
  name : String
  fully_qualified_name : String
  package : String
  modifiers : List String := []
  annots : List JavaAnnotation := []
  extends_ : Option String := none
  implements : List String := []
  methods : List JavaMethod := []
  fields : List JavaField := []
  javadoc : Option JavaDoc := none
  is_interface : Bool := false
  is_abstract : Bool := false
  is_enum : Bool := false
  inner_classes : List String := []
deriving DecidableEq, Repr

/-! ## The API indexer (`src/javamcp/indexer/indexer.py`, class `APIIndexer`) -/

/-- The mutable state of `class APIIndexer`: six dicts and the built flag. -/
structure APIIndexer where
  class_index : PyDict JavaClass
  class_name_index : PyDict (List JavaClass)
  package_index : PyDict (List JavaClass)
  repository_index : PyDict (List JavaClass)
  method_index : PyDict (List (JavaClass × JavaMethod))
  class_method_index : PyDict (List JavaMethod)
  _is_built : Bool
deriving DecidableEq, Repr

/-- `APIIndexer.__init__`: all six indices empty, built flag down. -/
def emptyIndexer : APIIndexer :=
  { class_index := [], class_name_index := [], package_index := [],
    repository_index := [], method_index := [], class_method_index := [],
    _is_built := false }

/-- The body of `add_class`'s method loop: file the method under its name in
`method_index` and under its class's fully-qualified name in
`class_method_index`. -/
def indexMethodStep (java_class : JavaClass) (idx : APIIndexer)
    (method : JavaMethod) : APIIndexer :=
  let idx := { idx with
    method_index := dappend idx.method_index method.name (java_class, method) }
  { idx with
    class_method_index :=
      dappend idx.class_method_index java_class.fully_qualified_name method }

/-- `APIIndexer.add_class`: insert one class into all six indices and raise
the built flag, in the statement order of the source. -/
def APIIndexer.add_class (idx : APIIndexer) (java_class : JavaClass)
    (repository_url : String) : APIIndexer :=
  let idx := { idx with
    class_index := dset idx.class_index java_class.fully_qualified_name java_class }
  let idx := { idx with
    class_name_index := dappend idx.class_name_index java_class.name java_class }
  let idx := { idx with
    package_index := dappend idx.package_index java_class.package java_class }
  let idx := { idx with
    repository_index := dappend idx.repository_index repository_url java_class }
  let idx := java_class.methods.foldl (indexMethodStep java_class) idx
  { idx with _is_built := true }

/-- `APIIndexer.add_classes`: add each class in list order. -/
def APIIndexer.add_classes (idx : APIIndexer) (java_classes : List JavaClass)
    (repository_url : String) : APIIndexer :=
  java_classes.foldl (fun idx c => idx.add_class c repository_url) idx

/-- `APIIndexer.get_class_by_fqn`. -/
def APIIndexer.get_class_by_fqn (idx : APIIndexer)
    (fully_qualified_name : String) : Option JavaClass :=
  dget idx.class_index fully_qualified_name

/-- `APIIndexer.get_classes_by_name` (defaults to `[]`). -/
def APIIndexer.get_classes_by_name (idx : APIIndexer) (class_name : String) :
    List JavaClass :=
  dgetD idx.class_name_index class_name []

/-- `APIIndexer.get_classes_by_package` (defaults to `[]`). -/
def APIIndexer.get_classes_by_package (idx : APIIndexer) (package_name : String) :
    List JavaClass :=
  dgetD idx.package_index package_name []

/-- `APIIndexer.get_classes_by_repository` (defaults to `[]`). -/
def APIIndexer.get_classes_by_repository (idx : APIIndexer)
    (repository_url : String) : List JavaClass :=
  dgetD idx.repository_index repository_url []

/-- `APIIndexer.get_methods_by_name` (defaults to `[]`). -/
def APIIndexer.get_methods_by_name (idx : APIIndexer) (method_name : String) :
    List (JavaClass × JavaMethod) :=
  dgetD idx.method_index method_name []

/-- `APIIndexer.get_methods_by_class` (defaults to `[]`). -/
def APIIndexer.get_methods_by_class (idx : APIIndexer)
    (fully_qualified_name : String) : List JavaMethod :=
  dgetD idx.class_method_index fully_qualified_name []

/-- `APIIndexer.get_total_classes`: `len(self.class_index)`. -/
def APIIndexer.get_total_classes (idx : APIIndexer) : Nat :=
  idx.class_index.length

/-- `APIIndexer.get_total_methods`: sum of the method-list lengths held in
`class_method_index`. -/
def APIIndexer.get_total_methods (idx : APIIndexer) : Nat :=
  ((dvalues idx.class_method_index).map List.length).sum

/-- `APIIndexer.is_built`. -/
def APIIndexer.is_built (idx : APIIndexer) : Bool :=
  idx._is_built

/-- `APIIndexer.clear`: empty all six dicts and reset the built flag. -/
def APIIndexer.clear (_ : APIIndexer) : APIIndexer :=
  emptyIndexer

/-- One step of `_remove_repository`'s inner method loop: filter the removed
method's name bucket, keeping pairs whose class has a fully-qualified name
different from `fqn` (the removed class's). -/
def removeMethodStep (fqn : String) (mi : PyDict (List (JavaClass × JavaMethod)))
    (method : JavaMethod) : PyDict (List (JavaClass × JavaMethod)) :=
  if dcontains mi method.name then
    dset mi method.name
      ((dgetD mi method.name []).filter (fun p =>
        p.1.fully_qualified_name != fqn))
  else mi

/-- The `method_index` part of one iteration of `_remove_repository`'s class
loop, as a fold of `removeMethodStep` over the removed class's methods. -/
def removeMethodsOfClass (mi : PyDict (List (JavaClass × JavaMethod)))
    (java_class : JavaClass) : PyDict (List (JavaClass × JavaMethod)) :=
  java_class.methods.foldl (removeMethodStep java_class.fully_qualified_name) mi

/-- One iteration of `_remove_repository`'s loop body: purge a single class
from `class_index`, `class_name_index`, `package_index`, `method_index`, and
`class_method_index`. -/
def removeClassOnce (idx : APIIndexer) (java_class : JavaClass) : APIIndexer :=
  let idx := { idx with
    class_index := dpop idx.class_index java_class.fully_qualified_name }
  let idx := { idx with
    class_name_index :=
      if dcontains idx.class_name_index java_class.name then
        dset idx.class_name_index java_class.name
          ((dgetD idx.class_name_index java_class.name []).filter (fun c =>
            c.fully_qualified_name != java_class.fully_qualified_name))
      else idx.class_name_index }
  let idx := { idx with
    package_index :=
      if dcontains idx.package_index java_class.package then
        dset idx.package_index java_class.package
          ((dgetD idx.package_index java_class.package []).filter (fun c =>
            c.fully_qualified_name != java_class.fully_qualified_name))
      else idx.package_index }
  let idx := { idx with
    method_index := removeMethodsOfClass idx.method_index java_class }
  { idx with
    class_method_index := dpop idx.class_method_index java_class.fully_qualified_name }

/-- `APIIndexer._remove_repository`: early return when the repository is not
indexed; otherwise purge each of its classes, then drop the repository key. -/
def APIIndexer._remove_repository (idx : APIIndexer) (repository_url : String) :
    APIIndexer :=
  if dcontains idx.repository_index repository_url then
    let classes_to_remove := dgetD idx.repository_index repository_url []
    let idx := classes_to_remove.foldl removeClassOnce idx
    { idx with repository_index := dpop idx.repository_index repository_url }
  else idx

/-- `APIIndexer.reindex_repository`: remove the repository's old classes,
then add the new ones. -/
def APIIndexer.reindex_repository (idx : APIIndexer) (repository_url : String)
    (java_classes : List JavaClass) : APIIndexer :=
  (idx._remove_repository repository_url).add_classes java_classes repository_url

/-! ## The query engine (`src/javamcp/indexer/query_engine.py`, class `QueryEngine`)

The engine raises `IndexNotBuiltError` / `RepositoryNotIndexedError`
(imported from `javamcp.indexer.exceptions`); raising is embedded as an
`Except.error` result. -/

/-- The errors the query engine raises, with their messages. -/
inductive QueryError : Type where
  | indexNotBuilt (message : String)
  | repositoryNotIndexed (message : String)
deriving DecidableEq, Repr

/-- The dictionary `QueryEngine.get_statistics` returns. -/
structure IndexStatistics where
  total_classes : Nat
  total_methods : Nat
  total_repositories : Nat
  total_packages : Nat
deriving DecidableEq, Repr

/-- `QueryEngine.search_methods`: built-flag gate, exact (case-sensitive) or
lower-cased scan over the method-name keys, then the optional class-name
filter (skipped for a `None` or empty filter, as Python truthiness does). -/
def QueryEngine.search_methods (idx : APIIndexer) (method_name : String)
    (class_name : Option String) (case_sensitive : Bool) :
    Except QueryError (List (JavaClass × JavaMethod)) :=
  if !idx.is_built then .error (.indexNotBuilt "Index has not been built")
  else
    let matching_methods :=
      if case_sensitive then idx.get_methods_by_name method_name
      else idx.method_index.foldl (fun acc p =>
        if strLower p.1 == strLower method_name then acc ++ p.2 else acc) []
    let results :=
      match class_name with
      | some cn =>
          if cn != "" then
            if case_sensitive then
              matching_methods.filter (fun p => p.1.name == cn)
            else
              matching_methods.filter (fun p => strLower p.1.name == strLower cn)
          else matching_methods
      | none => matching_methods
    .ok results

/-- `QueryEngine.search_methods_partial`: built-flag gate, then a substring
scan over every method-name key. -/
def QueryEngine.search_methods_partial (idx : APIIndexer)
    (method_name_pattern : String) (case_sensitive : Bool) :
    Except QueryError (List (JavaClass × JavaMethod)) :=
  if !idx.is_built then .error (.indexNotBuilt "Index has not been built")
  else
    .ok (idx.method_index.foldl (fun acc p =>
      if (if case_sensitive then hasSubstr p.1 method_name_pattern
          else hasSubstr (strLower p.1) (strLower method_name_pattern))
      then acc ++ p.2 else acc) [])

/-- `QueryEngine.search_class`: built-flag gate, then a direct FQN lookup or
the first case-insensitive FQN match. -/
def QueryEngine.search_class (idx : APIIndexer) (class_name : String)
    (case_sensitive : Bool) : Except QueryError (Option JavaClass) :=
  if !idx.is_built then .error (.indexNotBuilt "Index has not been built")
  else if case_sensitive then .ok (idx.get_class_by_fqn class_name)
  else
    .ok ((idx.class_index.find? (fun p =>
      strLower p.1 == strLower class_name)).map (fun p => p.2))

/-- `QueryEngine.filter_classes_by_repository`: built-flag gate, then the
repository bucket; an empty bucket raises `RepositoryNotIndexedError`. -/
def QueryEngine.filter_classes_by_repository (idx : APIIndexer)
    (repository_url : String) : Except QueryError (List JavaClass) :=
  if !idx.is_built then .error (.indexNotBuilt "Index has not been built")
  else
    let classes := idx.get_classes_by_repository repository_url
    if classes.isEmpty then
      .error (.repositoryNotIndexed ("Repository not indexed: " ++ repository_url))
    else .ok classes

/-- `QueryEngine.filter_classes_by_package`: built-flag gate, the package
bucket, optionally intersected by FQN with one repository's class set (the
filter is skipped for a `None` or empty URL, as Python truthiness does). -/
def QueryEngine.filter_classes_by_package (idx : APIIndexer)
    (package_name : String) (repository_url : Option String) :
    Except QueryError (List JavaClass) :=
  if !idx.is_built then .error (.indexNotBuilt "Index has not been built")
  else
    let classes := idx.get_classes_by_package package_name
    match repository_url with
    | some url =>
        if url != "" then
          let repo_classes := (idx.get_classes_by_repository url).map
            (fun c => c.fully_qualified_name)
          .ok (classes.filter (fun c => repo_classes.contains c.fully_qualified_name))
        else .ok classes
    | none => .ok classes

/-- `QueryEngine.get_classes_by_name`: built-flag gate, then an exact or
lower-cased scan over the simple-class-name keys. -/
def QueryEngine.get_classes_by_name (idx : APIIndexer) (class_name : String)
    (case_sensitive : Bool) : Except QueryError (List JavaClass) :=
  if !idx.is_built then .error (.indexNotBuilt "Index has not been built")
  else if case_sensitive then .ok (idx.get_classes_by_name class_name)
  else
    .ok (idx.class_name_index.foldl (fun acc p =>
      if strLower p.1 == strLower class_name then acc ++ p.2 else acc) [])

/-- `QueryEngine.get_statistics`: the four totals, with no built-flag gate
anywhere in its body. -/
def QueryEngine.get_statistics (idx : APIIndexer) : IndexStatistics :=
  { total_classes := idx.get_total_classes,
    total_methods := idx.get_total_methods,
    total_repositories := idx.repository_index.length,
    total_packages := idx.package_index.length }

/-! ## Repository synchronization (`src/javamcp/repositories/models.py`,
`src/javamcp/repositories/manager.py`, `src/javamcp/repositories/exceptions.py`)

Git and the filesystem are the environment; their behavior at each external
call site is supplied as explicit data (`CloneOutcome`, `SyncEnv`,
`RepoBehavior`), and `syncRepository` additionally records the git actions it
performs, in order, so that "fails before fetch" is provable. -/

/-- `class RepositoryStatus(str, Enum)`. -/
inductive RepositoryStatus : Type where
  | pending
  | cloning
  | syncing
  | success
  | failed
deriving DecidableEq, Repr

/-- `class Repository(BaseModel)`: url, local path and status. -/
structure Repository where
  url : String
  local_path : String
  status : RepositoryStatus := .pending
deriving DecidableEq, Repr

/-- The declared field names of the pydantic model `Repository` in
`repositories/models.py`, in declaration order. -/
def Repository.pydanticFields : List String :=
  ["url", "local_path", "status"]

/-- `class RepositoryResult(BaseModel)`: outcome of one clone/sync. -/
structure RepositoryResult where
  repository : Repository
  success : Bool
  message : String
  error_details : Option String := none
deriving DecidableEq, Repr

/-- The declared field names of the pydantic model `RepositoryResult` in
`repositories/models.py`, in declaration order. -/
def RepositoryResult.pydanticFields : List String :=
  ["repository", "success", "message", "error_details"]

/-- Which of the typed exception classes of `repositories/exceptions.py` an
error instance belongs to. -/
inductive RepoErrorKind : Type where
  | notFound
  | cloneFailed
  | syncFailed
deriving DecidableEq, Repr

/-- A raised `RepositoryNotFoundError` / `RepositoryCloneError` /
`RepositorySyncError`, with the constructor arguments it was built from. -/
structure RepoError where
  kind : RepoErrorKind
  message : String
  repository_url : Option String := none
  details : Option String := none
deriving DecidableEq, Repr

/-- The `message` attribute set by the subclass constructors, which prefix
the kind ("Repository not found: ", "Clone failed: ", "Sync failed: "). -/
def RepoError.fullMessage (e : RepoError) : String :=
  match e.kind with
  | .notFound => "Repository not found: " ++ e.message
  | .cloneFailed => "Clone failed: " ++ e.message
  | .syncFailed => "Sync failed: " ++ e.message

/-- One optional part of `RepositoryError.__str__` (a `None` or empty value
is falsy in Python and contributes nothing). -/
def optPart (label : String) : Option String → List String
  | none => []
  | some s => if s == "" then [] else [label ++ s]

/-- `RepositoryError.__str__`: message, repository and details joined by
a pipe separator. -/
def RepoError.str (e : RepoError) : String :=
  String.intercalate " | "
    ([e.fullMessage] ++ optPart "Repository: " e.repository_url
      ++ optPart "Details: " e.details)

/-- What the git environment does when `_clone_repository` reaches
`git.Repo.clone_from` (or an earlier filesystem step blows up):
the clone works, git fails with a command error whose text is `msg`, or some
other exception with text `msg` is raised. -/
inductive CloneOutcome : Type where
  | ok
  | gitCommandError (msg : String)
  | unexpectedError (msg : String)
deriving DecidableEq, Repr

/-- `GitRepositoryManager._clone_repository`: set `CLONING`, attempt the
clone, and on failure classify: a git command error whose text signals a
missing repository raises `RepositoryNotFoundError`, any other git command
error raises `RepositoryCloneError`, and any other exception also raises
`RepositoryCloneError`; the status ends `SUCCESS` or `FAILED`. -/
def cloneRepository (r0 : Repository) (env : CloneOutcome) :
    Repository × Except RepoError RepositoryResult :=
  let r := { r0 with status := .cloning }
  match env with
  | .ok =>
      let r := { r with status := .success }
      (r, .ok { repository := r, success := true,
                message := "Repository cloned successfully to " ++ r.local_path })
  | .gitCommandError msg =>
      let r := { r with status := .failed }
      let error_msg := "Git command failed: " ++ msg
      if hasSubstr msg "Repository not found" || hasSubstr msg "does not exist" then
        (r, .error { kind := .notFound,
                     message := "Repository not found or inaccessible",
                     repository_url := some r.url, details := some msg })
      else
        (r, .error { kind := .cloneFailed, message := error_msg,
                     repository_url := some r.url, details := some msg })
  | .unexpectedError msg =>
      let r := { r with status := .failed }
      (r, .error { kind := .cloneFailed,
                   message := "Unexpected error during clone: " ++ msg,
                   repository_url := some r.url, details := some msg })

/-- `GitRepositoryManager._validate_repository_remote`: read the configured
"origin" URL (`none` embeds any git error while doing so, which the source
turns into `False`), then compare with the record's URL, treating a trailing
".git" as optional on whichever single side has it. -/
def validateRepositoryRemote (remoteUrl : Option String) (url : String) : Bool :=
  match remoteUrl with
  | none => false
  | some remote_url =>
      if remote_url == url then true
      else if strEndsWith remote_url ".git" && !(strEndsWith url ".git")
              && strDropRight remote_url 4 == url then true
      else if !(strEndsWith remote_url ".git") && strEndsWith url ".git"
              && remote_url == strDropRight url 4 then true
      else false

/-- The external behavior one `_sync_repository` call can observe: whether
`git.Repo` opens (`openError`), the readable remote URL if any, and the
outcome of each git step (`none` is success, `some msg` the failing error
text), plus the currently checked-out branch. -/
structure SyncEnv where
  openError : Option String
  remoteUrl : Option String
  fetchError : Option String
  activeBranch : String
  checkoutError : Option String
  checkoutTrackError : Option String
  resetError : Option String
deriving DecidableEq, Repr

/-- The git actions `_sync_repository` can perform, for the action trace. -/
inductive GitAction : Type where
  | fetch
  | checkoutMain
  | checkoutTrackMain
  | resetHard
deriving DecidableEq, Repr

/-- An error escaping the `try` body of `_sync_repository`: either the
`InvalidGitRepositoryError` from `git.Repo`, or one of the
`RepositorySyncError`s the body raises itself. -/
inductive SyncBodyError : Type where
  | invalidGitRepo (msg : String)
  | syncErr (e : RepoError)
deriving DecidableEq, Repr

/-- The `try` body of `_sync_repository` on a record already marked
`SYNCING`: open the repo, validate the remote URL, fetch, reconcile the
checked-out branch with "main" (plain checkout, then a tracking-branch
checkout as fallback), and hard-reset to origin/main; alongside the result it
returns the list of git actions performed, in order. -/
def syncBody (r : Repository) (env : SyncEnv) :
    Except SyncBodyError (Repository × RepositoryResult) × List GitAction :=
  match env.openError with
  | some m => (.error (.invalidGitRepo m), [])
  | none =>
    if !validateRepositoryRemote env.remoteUrl r.url then
      (.error (.syncErr { kind := .syncFailed,
                          message := "Repository remote URL does not match expected URL",
                          repository_url := some r.url,
                          details := some ("Local path: " ++ r.local_path) }), [])
    else
      match env.fetchError with
      | some m =>
          (.error (.syncErr { kind := .syncFailed,
                              message := "Failed to fetch from remote: " ++ m,
                              repository_url := some r.url,
                              details := some m }), [.fetch])
      | none =>
        let branchStep : Option String × List GitAction :=
          if env.activeBranch == "main" then (none, [])
          else match env.checkoutError with
            | none => (none, [.checkoutMain])
            | some _ =>
              match env.checkoutTrackError with
              | none => (none, [.checkoutMain, .checkoutTrackMain])
              | some m2 => (some m2, [.checkoutMain, .checkoutTrackMain])
        match branchStep with
        | (some m, acts) =>
            (.error (.syncErr { kind := .syncFailed,
                                message := "Cannot checkout main branch: " ++ m,
                                repository_url := some r.url,
                                details := some m }),
             [.fetch] ++ acts)
        | (none, acts) =>
          match env.resetError with
          | some m =>
              (.error (.syncErr { kind := .syncFailed,
                                  message := "Failed to reset to origin/main: " ++ m,
                                  repository_url := some r.url,
                                  details := some m }),
               [.fetch] ++ acts ++ [.resetHard])
          | none =>
              let r2 := { r with status := .success }
              (.ok (r2, { repository := r2, success := true,
                          message := "Repository synchronized successfully at "
                            ++ r.local_path }),
               [.fetch] ++ acts ++ [.resetHard])

/-- `GitRepositoryManager._sync_repository`: set `SYNCING`, run the body,
and re-wrap any escaping error as a `RepositorySyncError` (the body's own
`RepositorySyncError`s land in the `except Exception` arm and are wrapped as
"Unexpected error during sync" around their `str`); the status ends
`SUCCESS` or `FAILED`. -/
def syncRepository (r0 : Repository) (env : SyncEnv) :
    Repository × Except RepoError RepositoryResult × List GitAction :=
  let r := { r0 with status := .syncing }
  match syncBody r env with
  | (.ok (r2, res), acts) => (r2, .ok res, acts)
  | (.error (.invalidGitRepo m), acts) =>
      let rf := { r with status := .failed }
      (rf, .error { kind := .syncFailed,
                    message := "Invalid Git repository: " ++ m,
                    repository_url := some r.url, details := some m }, acts)
  | (.error (.syncErr e), acts) =>
      let rf := { r with status := .failed }
      (rf, .error { kind := .syncFailed,
                    message := "Unexpected error during sync: " ++ e.str,
                    repository_url := some r.url, details := some (e.str) }, acts)

/-- How the environment treats one configured repository inside
`process_repositories`: an untyped exception escapes before/around the
clone-or-sync dispatch, or `_repository_exists` is true and the sync path
runs, or it is false and the clone path runs. -/
inductive RepoBehavior : Type where
  | raisesUnexpected (msg : String)
  | existsLocally (env : SyncEnv)
  | notCloned (env : CloneOutcome)
deriving DecidableEq, Repr

/-- One iteration of the `process_repositories` loop: dispatch on
`_repository_exists`, and convert every raised error into a failure
`RepositoryResult` — typed repository errors keep their `str` as the message
and their `details`, untyped ones get an "Unexpected error" message; the
record's status is forced to `FAILED` in both handlers. -/
def processOne : Repository × RepoBehavior → RepositoryResult
  | (r, .raisesUnexpected msg) =>
      { repository := { r with status := .failed }, success := false,
        message := "Unexpected error: " ++ msg, error_details := some msg }
  | (r, .existsLocally env) =>
      match syncRepository r env with
      | (_, .ok res, _) => res
      | (rf, .error e, _) =>
          { repository := { rf with status := .failed }, success := false,
            message := e.str, error_details := e.details }
  | (r, .notCloned env) =>
      match cloneRepository r env with
      | (_, .ok res) => res
      | (rf, .error e) =>
          { repository := { rf with status := .failed }, success := false,
            message := e.str, error_details := e.details }

/-- `GitRepositoryManager.process_repositories` (the spec's `syncAll`): one
loop iteration per configured repository, in order, collecting results. -/
def processRepositories (tasks : List (Repository × RepoBehavior)) :
    List RepositoryResult :=
  tasks.map processOne

/-! ## Spec-side definitions and concrete scenario data -/

/-- Strip one trailing ".git" when present. -/
def stripGitSuffix (s : String) : String :=
  if strEndsWith s ".git" then strDropRight s 4 else s

/-- Modelled from the spec: the matching rule of "the two URLs are considered
matching exactly when they are equal after optionally stripping a trailing
'.git' from either side" — every combination of stripping or keeping each
side. -/
def urlsMatchSpec (remote url : String) : Bool :=
  remote == url || stripGitSuffix remote == url || remote == stripGitSuffix url
    || stripGitSuffix remote == stripGitSuffix url

/-- The matching rule the source actually implements: equal outright, or
exactly one of the two URLs ends in ".git" and stripping it yields the
other. -/
def urlsMatchAmended (remote url : String) : Bool :=
  remote == url
    || (strEndsWith remote ".git" != strEndsWith url ".git"
        && stripGitSuffix remote == stripGitSuffix url)

/-- The kind of error a clone/sync result carries, when it is an error. -/
def syncErrKind : Except RepoError RepositoryResult → Option RepoErrorKind
  | .error e => some e.kind
  | .ok _ => none

/-- Well-formedness of the method-name index, which `add_class` establishes:
every pair filed under a method name is a method of its own class, filed
under that method's name. -/
def MethodIndexWF (idx : APIIndexer) : Prop :=
  ∀ e ∈ idx.method_index, ∀ p ∈ e.2, p.2 ∈ p.1.methods ∧ p.2.name = e.1

/-- `MethodIndexWF` is a bounded quantification over concrete lists, hence
decidable. -/
instance (idx : APIIndexer) : Decidable (MethodIndexWF idx) := by
  unfold MethodIndexWF
  infer_instance

/-- The sum of the per-repository class-list lengths in `repository_index`. -/
def sumRepositoryListLengths (idx : APIIndexer) : Nat :=
  ((dvalues idx.repository_index).map List.length).sum

/-- Scenario A's method `render():void`. -/
def mRender : JavaMethod := { name := "render", return_type := "void" }

/-- Scenario A's method `getId():String`. -/
def mGetId : JavaMethod := { name := "getId", return_type := "String" }

/-- Scenario A's method `create():Widget`. -/
def mCreate : JavaMethod := { name := "create", return_type := "Widget" }

/-- Scenario A's class `com.acme.Widget`. -/
def widgetClass : JavaClass :=
  { name := "Widget", fully_qualified_name := "com.acme.Widget",
    package := "com.acme", methods := [mRender, mGetId] }

/-- Scenario A's class `com.acme.WidgetFactory`. -/
def widgetFactoryClass : JavaClass :=
  { name := "WidgetFactory", fully_qualified_name := "com.acme.WidgetFactory",
    package := "com.acme", methods := [mCreate] }

/-- Scenario A's index: both classes added under repository "R1". -/
def scnIdx : APIIndexer :=
  (emptyIndexer.add_class widgetClass "R1").add_class widgetFactoryClass "R1"

/-- Scenario A's index after `removeRepository("R1")`. -/
def scnAfter : APIIndexer := scnIdx._remove_repository "R1"

/-- Method `m():void` of the colliding class from repository "A". -/
def mVoid : JavaMethod := { name := "m", return_type := "void" }

/-- Method `m():int` of the colliding class from repository "B". -/
def mInt : JavaMethod := { name := "m", return_type := "int" }

/-- Method `m():long` of the non-colliding class from repository "B". -/
def mLong : JavaMethod := { name := "m", return_type := "long" }

/-- Class `p.C` as indexed from repository "A". -/
def cexA : JavaClass :=
  { name := "C", fully_qualified_name := "p.C", package := "p",
    methods := [mVoid] }

/-- A distinct class with the same fully-qualified name `p.C`, indexed from
repository "B". -/
def cexB : JavaClass :=
  { name := "C", fully_qualified_name := "p.C", package := "p",
    methods := [mInt] }

/-- Class `q.D` from repository "B", no name collision. -/
def cexD : JavaClass :=
  { name := "D", fully_qualified_name := "q.D", package := "q",
    methods := [mLong] }

/-- Index holding the FQN-colliding pair: `cexA` under "A", `cexB` under
"B". -/
def c7Idx : APIIndexer := (emptyIndexer.add_class cexA "A").add_class cexB "B"

/-- Index holding the FQN-colliding pair plus the unrelated `cexD` under
"B". -/
def c2Idx : APIIndexer := c7Idx.add_class cexD "B"

/-- A repository record whose configured URL ends in ".git". -/
def cexSyncRepo : Repository :=
  { url := "https://h/a.git", local_path := "/base/h_a" }

/-- A sync environment whose readable remote URL is the record's URL with a
second ".git" appended, and where every later git step would succeed. -/
def cexSyncEnv : SyncEnv :=
  { openError := none, remoteUrl := some "https://h/a.git.git",
    fetchError := none, activeBranch := "main", checkoutError := none,
    checkoutTrackError := none, resetError := none }

/-- Equality of embedded raise-or-return results is decidable. -/
instance {e a : Type} [DecidableEq e] [DecidableEq a] : DecidableEq (Except e a)
  | .ok x, .ok y =>
      if h : x = y then .isTrue (by rw [h])
      else .isFalse (by intro hh; cases hh; exact h rfl)
  | .ok _, .error _ => .isFalse (by intro h; cases h)
  | .error _, .ok _ => .isFalse (by intro h; cases h)
  | .error x, .error y =>
      if h : x = y then .isTrue (by rw [h])
      else .isFalse (by intro hh; cases hh; exact h rfl)

/-! ## Dictionary lemmas -/

theorem dget_dset_self {V : Type} (d : PyDict V) (k : String) (v : V) :
    dget (dset d k v) k = some v := by
  induction d with
  | nil => simp [dget, dset]
  | cons hd rest ih =>
      obtain ⟨k', v'⟩ := hd
      by_cases h : (k' == k) = true
      · simp [dset, h, dget]
      · simp only [Bool.not_eq_true] at h
        simp [dset, h, dget, ih]

theorem dget_dset_ne {V : Type} (d : PyDict V) (k₁ k₂ : String) (v : V)
    (h : (k₂ == k₁) = false) : dget (dset d k₁ v) k₂ = dget d k₂ := by
  have h' : (k₁ == k₂) = false := by
    rw [beq_eq_false_iff_ne] at h ⊢
    exact h.symm
  induction d with
  | nil => simp [dget, dset, h']
  | cons hd rest ih =>
      obtain ⟨k', v'⟩ := hd
      by_cases hk : (k' == k₁) = true
      · have : (k' == k₂) = false := by
          rw [beq_iff_eq] at hk
          rw [hk]
          exact h'
        simp [dset, hk, dget, this]
      · simp only [Bool.not_eq_true] at hk
        by_cases hk2 : (k' == k₂) = true
        · simp [dset, hk, dget, hk2]
        · simp only [Bool.not_eq_true] at hk2
          simp [dset, hk, dget, hk2, ih]

theorem dget_dpop_self {V : Type} (d : PyDict V) (k : String) :
    dget (dpop d k) k = none := by
  induction d with
  | nil => simp [dget, dpop]
  | cons hd rest ih =>
      obtain ⟨k', v'⟩ := hd
      by_cases h : (k' == k) = true
      · simpa [dpop, List.filter_cons, h, bne] using ih
      · simp only [Bool.not_eq_true] at h
        simpa [dpop, List.filter_cons, h, bne, dget] using ih

theorem dget_mem {V : Type} (d : PyDict V) (k : String) (v : V)
    (h : dget d k = some v) : (k, v) ∈ d := by
  induction d with
  | nil => simp [dget] at h
  | cons hd rest ih =>
      obtain ⟨k', v'⟩ := hd
      by_cases hk : (k' == k) = true
      · rw [beq_iff_eq] at hk
        simp [dget, hk] at h
        simp [hk, h]
      · simp only [Bool.not_eq_true] at hk
        simp only [dget, hk, Bool.false_eq_true, if_false] at h
        exact List.mem_cons_of_mem _ (ih h)

theorem dgetD_dappend_self {A : Type} (d : PyDict (List A)) (k : String) (x : A) :
    dgetD (dappend d k x) k [] = dgetD d k [] ++ [x] := by
  simp [dappend, dgetD, dget_dset_self]

theorem dgetD_dappend_ne {A : Type} (d : PyDict (List A)) (k₁ k₂ : String) (x : A)
    (h : (k₂ == k₁) = false) : dgetD (dappend d k₁ x) k₂ [] = dgetD d k₂ [] := by
  simp [dappend, dgetD, dget_dset_ne _ _ _ _ h]

theorem dset_length_of_contains {V : Type} (d : PyDict V) (k : String) (v : V)
    (h : dcontains d k = true) : (dset d k v).length = d.length := by
  induction d with
  | nil => simp [dcontains, dget] at h
  | cons hd rest ih =>
      obtain ⟨k', v'⟩ := hd
      by_cases hk : (k' == k) = true
      · simp [dset, hk]
      · simp only [Bool.not_eq_true] at hk
        simp only [dcontains, dget, hk, Bool.false_eq_true, if_false] at h
        simp [dset, hk, ih h]

/-! ## Removal-loop characterization lemmas -/

theorem removeMethodStep_foldl_get (fqn name : String) (ms : List JavaMethod) :
    ∀ (mi : PyDict (List (JavaClass × JavaMethod))),
    dgetD (ms.foldl (removeMethodStep fqn) mi) name []
      = (dgetD mi name []).filter (fun p =>
          !(ms.any (fun m => m.name == name)
            && p.1.fully_qualified_name == fqn)) := by
  induction ms with
  | nil =>
      intro mi
      simp
  | cons m ms ih =>
      intro mi
      rw [List.foldl_cons, ih]
      by_cases hm : (m.name == name) = true
      · have hname : m.name = name := beq_iff_eq.mp hm
        by_cases hc : dcontains mi m.name = true
        · have : dgetD (removeMethodStep fqn mi m) name []
              = (dgetD mi name []).filter (fun p =>
                  p.1.fully_qualified_name != fqn) := by
            rw [removeMethodStep, if_pos hc, hname]
            simp [dgetD, dget_dset_self]
          rw [this, List.filter_filter]
          refine List.filter_congr ?_
          intro p _
          cases hf : (p.1.fully_qualified_name == fqn) <;> simp [hm, hf, bne]
        · have hstep : removeMethodStep fqn mi m = mi := by
            rw [removeMethodStep, if_neg (by simp [hc])]
          have hnone : dget mi name = none := by
            rw [← hname]
            simp only [dcontains, Bool.not_eq_true] at hc
            exact Option.not_isSome_iff_eq_none.mp (by simp [hc])
          rw [hstep]
          simp [dgetD, hnone]
      · simp only [Bool.not_eq_true] at hm
        have hstep : dgetD (removeMethodStep fqn mi m) name [] = dgetD mi name [] := by
          rw [removeMethodStep]
          by_cases hc : dcontains mi m.name = true
          · rw [if_pos hc]
            have hne : (name == m.name) = false := by
              rw [beq_eq_false_iff_ne] at hm ⊢
              exact hm.symm
            simp [dgetD, dget_dset_ne _ _ _ _ hne]
          · rw [if_neg (by simp [hc])]
        rw [hstep]
        refine List.filter_congr ?_
        intro p _
        simp [hm]

theorem removeClassOnce_method_index (idx : APIIndexer) (X : JavaClass) :
    (removeClassOnce idx X).method_index = removeMethodsOfClass idx.method_index X :=
  rfl

theorem removeClassOnce_repository_index (idx : APIIndexer) (X : JavaClass) :
    (removeClassOnce idx X).repository_index = idx.repository_index :=
  rfl

theorem foldl_removeClassOnce_method_get (name : String) (L : List JavaClass) :
    ∀ (idx : APIIndexer),
    dgetD ((L.foldl removeClassOnce idx).method_index) name []
      = (dgetD idx.method_index name []).filter (fun p =>
          !(L.any (fun X => X.methods.any (fun m => m.name == name)
              && p.1.fully_qualified_name == X.fully_qualified_name))) := by
  induction L with
  | nil =>
      intro idx
      simp
  | cons X L ih =>
      intro idx
      rw [List.foldl_cons, ih, removeClassOnce_method_index, removeMethodsOfClass,
        removeMethodStep_foldl_get, List.filter_filter]
      refine List.filter_congr ?_
      intro p _
      cases h1 : (X.methods.any (fun m => m.name == name)
          && p.1.fully_qualified_name == X.fully_qualified_name) <;> simp [h1]

theorem foldl_removeClassOnce_repository_index (L : List JavaClass) :
    ∀ (idx : APIIndexer),
    (L.foldl removeClassOnce idx).repository_index = idx.repository_index := by
  induction L with
  | nil =>
      intro idx
      rfl
  | cons X L ih =>
      intro idx
      rw [List.foldl_cons, ih, removeClassOnce_repository_index]

/-- C2: after `removeRepository(u)` the repository bucket for `u` is empty
and (given the method-index well-formedness that `add_class` maintains) no
method-name entry references a class of `u`; but the method-name buckets are
filtered by fully-qualified name alone, so exactly the pairs whose class FQN
matches a removed class owning a method of that name are dropped — including
pairs contributed by classes of other repositories that collide on FQN.  The
original claim's preservation clause fails on such collisions (see the
counterexample). -/
theorem remove_repository_purges_by_fqn (idx : APIIndexer) (u : String) :
    (idx._remove_repository u).get_classes_by_repository u = [] ∧
    (∀ name, (idx._remove_repository u).get_methods_by_name name
        = (idx.get_methods_by_name name).filter (fun p =>
            !((idx.get_classes_by_repository u).any (fun X =>
                X.methods.any (fun m => m.name == name)
                && p.1.fully_qualified_name == X.fully_qualified_name)))) ∧
    (MethodIndexWF idx →
      ∀ name p, p ∈ (idx._remove_repository u).get_methods_by_name name →
        p.1 ∉ idx.get_classes_by_repository u) := by
  have main : (idx._remove_repository u).get_classes_by_repository u = [] ∧
      (∀ name, (idx._remove_repository u).get_methods_by_name name
        = (idx.get_methods_by_name name).filter (fun p =>
            !((idx.get_classes_by_repository u).any (fun X =>
                X.methods.any (fun m => m.name == name)
                && p.1.fully_qualified_name == X.fully_qualified_name)))) := by
    by_cases hc : dcontains idx.repository_index u = true
    · constructor
      · show dgetD (idx._remove_repository u).repository_index u [] = []
        rw [APIIndexer._remove_repository, if_pos hc]
        simp only
        rw [foldl_removeClassOnce_repository_index]
        simp [dgetD, dget_dpop_self]
      · intro name
        show dgetD (idx._remove_repository u).method_index name [] = _
        rw [APIIndexer._remove_repository, if_pos hc]
        simp only
        rw [foldl_removeClassOnce_method_get]
        rfl
    · have hrm : idx._remove_repository u = idx := by
        rw [APIIndexer._remove_repository, if_neg (by simp [hc])]
      have hnone : dget idx.repository_index u = none := by
        simp only [dcontains, Bool.not_eq_true] at hc
        exact Option.not_isSome_iff_eq_none.mp (by simp [hc])
      have hempty : idx.get_classes_by_repository u = [] := by
        simp [APIIndexer.get_classes_by_repository, dgetD, hnone]
      refine ⟨by rw [hrm, hempty], ?_⟩
      intro name
      rw [hrm, hempty]
      simp
  refine ⟨main.1, main.2, ?_⟩
  intro hWF name p hp hmem
  rw [main.2 name] at hp
  rw [List.mem_filter] at hp
  obtain ⟨hlist, hpred⟩ := hp
  have hentry : ∃ ps, dget idx.method_index name = some ps ∧ p ∈ ps := by
    revert hlist
    show p ∈ dgetD idx.method_index name [] → _
    cases hdg : dget idx.method_index name with
    | none => simp [dgetD, hdg]
    | some ps =>
        intro hml
        exact ⟨ps, rfl, by simpa [dgetD, hdg] using hml⟩
  obtain ⟨ps, hdg, hpps⟩ := hentry
  obtain ⟨hm1, hm2⟩ := hWF (name, ps) (dget_mem _ _ _ hdg) p hpps
  have hany : (idx.get_classes_by_repository u).any (fun X =>
      X.methods.any (fun m => m.name == name)
      && p.1.fully_qualified_name == X.fully_qualified_name) = true := by
    rw [List.any_eq_true]
    refine ⟨p.1, hmem, ?_⟩
    rw [Bool.and_eq_true]
    constructor
    · rw [List.any_eq_true]
      exact ⟨p.2, hm1, by simp [hm2]⟩
    · simp
  rw [hany] at hpred
  simp at hpred

/-- C2 counterexample: with `p.C` indexed from repository "A" and a distinct
class of the same fully-qualified name `p.C` indexed from repository "B",
removing "A" also drops the "B" class's entry for method name "m", although
that entry was contributed by a class not belonging to "A". -/
theorem remove_repository_preservation_cex :
    (cexB, mInt) ∈ c2Idx.get_methods_by_name "m" ∧
    cexB ∉ c2Idx.get_classes_by_repository "A" ∧
    (cexB, mInt) ∉ (c2Idx._remove_repository "A").get_methods_by_name "m" := by
  refine ⟨by decide, by decide, by decide⟩

/-- Witness for C2: on the concrete collision index, the well-formedness
hypothesis holds and the surviving entry's class is not a class of "A". -/
theorem remove_repository_purges_by_fqn_witness :
    MethodIndexWF c2Idx ∧
    (cexD, mLong) ∈ (c2Idx._remove_repository "A").get_methods_by_name "m" ∧
    cexD ∉ c2Idx.get_classes_by_repository "A" :=
  ⟨by decide, by decide,
   (remove_repository_purges_by_fqn c2Idx "A").2.2 (by decide) "m" (cexD, mLong)
     (by decide)⟩

/-- C3 (amended): with the index not built, the six searching/filtering
query-engine operations all fail with `IndexNotBuilt`; `get_statistics` alone
has no built-flag gate and returns its four totals instead of failing. -/
theorem query_operations_require_built_index (idx : APIIndexer)
    (h : idx._is_built = false) (mn pat fqn url pkg cn : String)
    (copt ropt : Option String) (cs : Bool) :
    QueryEngine.search_methods idx mn copt cs
      = .error (.indexNotBuilt "Index has not been built") ∧
    QueryEngine.search_methods_partial idx pat cs
      = .error (.indexNotBuilt "Index has not been built") ∧
    QueryEngine.search_class idx fqn cs
      = .error (.indexNotBuilt "Index has not been built") ∧
    QueryEngine.filter_classes_by_repository idx url
      = .error (.indexNotBuilt "Index has not been built") ∧
    QueryEngine.filter_classes_by_package idx pkg ropt
      = .error (.indexNotBuilt "Index has not been built") ∧
    QueryEngine.get_classes_by_name idx cn cs
      = .error (.indexNotBuilt "Index has not been built") ∧
    QueryEngine.get_statistics idx
      = { total_classes := idx.get_total_classes,
          total_methods := idx.get_total_methods,
          total_repositories := idx.repository_index.length,
          total_packages := idx.package_index.length } := by
  refine ⟨?_, ?_, ?_, ?_, ?_, ?_, rfl⟩ <;>
    simp [QueryEngine.search_methods, QueryEngine.search_methods_partial,
      QueryEngine.search_class, QueryEngine.filter_classes_by_repository,
      QueryEngine.filter_classes_by_package, QueryEngine.get_classes_by_name,
      APIIndexer.is_built, h]

/-- C3 counterexample: on the freshly-constructed (unbuilt) indexer,
`get_statistics` returns a value — all-zero totals — rather than failing
with `IndexNotBuilt`. -/
theorem get_statistics_unbuilt_returns_cex :
    emptyIndexer.is_built = false ∧
    QueryEngine.get_statistics emptyIndexer
      = { total_classes := 0, total_methods := 0,
          total_repositories := 0, total_packages := 0 } :=
  ⟨rfl, rfl⟩

/-- Witness for C3 at the empty indexer and concrete arguments. -/
theorem query_operations_require_built_index_witness :
    emptyIndexer._is_built = false ∧
    QueryEngine.search_methods emptyIndexer "render" none false
      = .error (.indexNotBuilt "Index has not been built") :=
  ⟨rfl, (query_operations_require_built_index emptyIndexer rfl "render" "r" "p.C"
    "u" "p" "C" none none false).1⟩

/-- C6 (amended): Scenario A behaves as claimed except for the post-removal
statistics: the package bucket key `com.acme` survives `removeRepository` as
an empty list, so `get_statistics` reports 1 package, not 0. -/
theorem scenario_a_amended :
    QueryEngine.get_statistics scnIdx
      = { total_classes := 2, total_methods := 3,
          total_repositories := 1, total_packages := 1 } ∧
    QueryEngine.search_methods scnIdx "render" none false
      = .ok [(widgetClass, mRender)] ∧
    widgetClass.fully_qualified_name = "com.acme.Widget" ∧
    QueryEngine.get_statistics scnAfter
      = { total_classes := 0, total_methods := 0,
          total_repositories := 0, total_packages := 1 } ∧
    QueryEngine.filter_classes_by_repository scnAfter "R1"
      = .error (.repositoryNotIndexed "Repository not indexed: R1") := by
  refine ⟨by decide, by decide, rfl, by decide, by decide⟩

/-- C6 counterexample: after `removeRepository("R1")` the statistics are not
all zeros — the package total is 1. -/
theorem scenario_a_statistics_cex :
    QueryEngine.get_statistics scnAfter
      ≠ { total_classes := 0, total_methods := 0,
          total_repositories := 0, total_packages := 0 } := by
  decide

/-- C8: `clear` resets the whole state to the freshly-initialized one, so
`clear; addClasses(X, R); clear; addClasses(X, R)` yields a state equal to a
single `addClasses(X, R)` on an empty index — hence identical statistics and
identical results for every query. -/
theorem clear_add_clear_add_idempotent (s : APIIndexer) (X : List JavaClass)
    (R : String) :
    ((((s.clear).add_classes X R).clear).add_classes X R)
      = emptyIndexer.add_classes X R ∧
    QueryEngine.get_statistics ((((s.clear).add_classes X R).clear).add_classes X R)
      = QueryEngine.get_statistics (emptyIndexer.add_classes X R) :=
  ⟨rfl, rfl⟩

/-- C10: removing a repository that has no `repository_index` entry is a
no-op on the whole state, and reindexing such a repository is exactly
`addClasses`. -/
theorem remove_absent_repository_noop (idx : APIIndexer) (u : String)
    (Y : List JavaClass) (h : dcontains idx.repository_index u = false) :
    idx._remove_repository u = idx ∧
    idx.reindex_repository u Y = idx.add_classes Y u := by
  have h1 : idx._remove_repository u = idx := by
    rw [APIIndexer._remove_repository, if_neg (by simp [h])]
  exact ⟨h1, by rw [APIIndexer.reindex_repository, h1]⟩

/-- Witness for C10: the empty indexer holds no repository "R". -/
theorem remove_absent_repository_noop_witness :
    dcontains emptyIndexer.repository_index "R" = false ∧
    emptyIndexer._remove_repository "R" = emptyIndexer :=
  ⟨rfl, (remove_absent_repository_noop emptyIndexer "R" [] rfl).1⟩

theorem foldl_indexMethodStep_class_maps (c : JavaClass) (ms : List JavaMethod) :
    ∀ (idx : APIIndexer),
    ((ms.foldl (indexMethodStep c) idx).class_index = idx.class_index ∧
     (ms.foldl (indexMethodStep c) idx).class_name_index = idx.class_name_index ∧
     (ms.foldl (indexMethodStep c) idx).package_index = idx.package_index ∧
     (ms.foldl (indexMethodStep c) idx).repository_index = idx.repository_index) := by
  induction ms with
  | nil =>
      intro idx
      exact ⟨rfl, rfl, rfl, rfl⟩
  | cons m ms ih =>
      intro idx
      rw [List.foldl_cons]
      exact ih (indexMethodStep c idx m)

/-- C7: re-adding a class whose fully-qualified name is already in
`class_index` overwrites that entry (last write wins) and leaves the key
count unchanged, while still appending the class to its `class_name_index`,
`package_index` and `repository_index` buckets; consequently the `class_index`
count can be smaller than the sum of the per-repository list lengths, as the
concrete collision index `c7Idx` shows. -/
theorem add_class_overwrites_fqn (idx : APIIndexer) (c : JavaClass) (u : String)
    (h : dcontains idx.class_index c.fully_qualified_name = true) :
    (idx.add_class c u).get_class_by_fqn c.fully_qualified_name = some c ∧
    (idx.add_class c u).get_total_classes = idx.get_total_classes ∧
    (idx.add_class c u).get_classes_by_name c.name
      = idx.get_classes_by_name c.name ++ [c] ∧
    (idx.add_class c u).get_classes_by_package c.package
      = idx.get_classes_by_package c.package ++ [c] ∧
    (idx.add_class c u).get_classes_by_repository u
      = idx.get_classes_by_repository u ++ [c] ∧
    c7Idx.get_total_classes < sumRepositoryListLengths c7Idx := by
  refine ⟨?_, ?_, ?_, ?_, ?_, by decide⟩
  · show dget (idx.add_class c u).class_index c.fully_qualified_name = some c
    rw [APIIndexer.add_class]
    simp only
    rw [(foldl_indexMethodStep_class_maps c c.methods _).1]
    exact dget_dset_self _ _ _
  · show (idx.add_class c u).class_index.length = idx.class_index.length
    rw [APIIndexer.add_class]
    simp only
    rw [(foldl_indexMethodStep_class_maps c c.methods _).1]
    exact dset_length_of_contains _ _ _ h
  · show dgetD (idx.add_class c u).class_name_index c.name []
        = dgetD idx.class_name_index c.name [] ++ [c]
    rw [APIIndexer.add_class]
    simp only
    rw [(foldl_indexMethodStep_class_maps c c.methods _).2.1]
    exact dgetD_dappend_self _ _ _
  · show dgetD (idx.add_class c u).package_index c.package []
        = dgetD idx.package_index c.package [] ++ [c]
    rw [APIIndexer.add_class]
    simp only
    rw [(foldl_indexMethodStep_class_maps c c.methods _).2.2.1]
    exact dgetD_dappend_self _ _ _
  · show dgetD (idx.add_class c u).repository_index u []
        = dgetD idx.repository_index u [] ++ [c]
    rw [APIIndexer.add_class]
    simp only
    rw [(foldl_indexMethodStep_class_maps c c.methods _).2.2.2]
    exact dgetD_dappend_self _ _ _

/-- Witness for C7: `c7Idx` already holds fully-qualified name "p.C", and
re-adding `cexA` under a third repository overwrites the `class_index` entry
while keeping the key count at 1. -/
theorem add_class_overwrites_fqn_witness :
    dcontains c7Idx.class_index cexA.fully_qualified_name = true ∧
    (c7Idx.add_class cexA "A2").get_class_by_fqn cexA.fully_qualified_name
      = some cexA ∧
    (c7Idx.add_class cexA "A2").get_total_classes = c7Idx.get_total_classes :=
  ⟨by decide, (add_class_overwrites_fqn c7Idx cexA "A2" (by decide)).1,
   (add_class_overwrites_fqn c7Idx cexA "A2" (by decide)).2.1⟩

/-! ## Process-loop lemmas -/

theorem processOne_spec (t : Repository × RepoBehavior) :
    (processOne t).repository.url = t.1.url ∧
    ((processOne t).success = true ∧ (processOne t).repository.status = .success ∨
     (processOne t).success = false ∧ (processOne t).repository.status = .failed ∧
       (processOne t).error_details.isSome = true) := by
  obtain ⟨r, b⟩ := t
  cases b with
  | raisesUnexpected msg => simp [processOne]
  | notCloned env =>
      cases env with
      | ok => simp [processOne, cloneRepository]
      | gitCommandError msg =>
          by_cases hs : (hasSubstr msg "Repository not found"
              || hasSubstr msg "does not exist") = true
          · simp [processOne, cloneRepository, hs]
          · simp only [Bool.not_eq_true] at hs
            simp [processOne, cloneRepository, hs]
      | unexpectedError msg => simp [processOne, cloneRepository]
  | existsLocally env =>
      obtain ⟨op, ru, fe, ab, ce, cte, re⟩ := env
      cases op with
      | some m => simp [processOne, syncRepository, syncBody]
      | none =>
          by_cases hv : validateRepositoryRemote ru r.url = true
          · cases fe with
            | some m => simp [processOne, syncRepository, syncBody, hv]
            | none =>
                cases re with
                | some m =>
                    by_cases hab : (ab == "main") = true <;>
                      cases ce <;> cases cte <;>
                        simp [processOne, syncRepository, syncBody, hv, hab]
                | none =>
                    by_cases hab : (ab == "main") = true <;>
                      cases ce <;> cases cte <;>
                        simp [processOne, syncRepository, syncBody, hv, hab]
          · simp only [Bool.not_eq_true] at hv
            simp [processOne, syncRepository, syncBody, hv]

/-- C1: `process_repositories` returns exactly one outcome per configured
repository, in input order; every error raised while cloning or syncing is
converted inside the loop into a failure outcome that keeps the repository's
url and carries error details, and — the return type being a plain list of
results — nothing propagates to the caller. -/
theorem process_repositories_one_outcome_per_url
    (tasks : List (Repository × RepoBehavior)) :
    (processRepositories tasks).length = tasks.length ∧
    ∀ i (h1 : i < tasks.length) (h2 : i < (processRepositories tasks).length),
      ((processRepositories tasks).get ⟨i, h2⟩).repository.url
        = (tasks.get ⟨i, h1⟩).1.url ∧
      (((processRepositories tasks).get ⟨i, h2⟩).success = false →
        ((processRepositories tasks).get ⟨i, h2⟩).error_details.isSome = true) := by
  refine ⟨by simp [processRepositories], ?_⟩
  intro i h1 h2
  have hg : (processRepositories tasks).get ⟨i, h2⟩
      = processOne (tasks.get ⟨i, h1⟩) := by
    simp [processRepositories]
  rw [hg]
  obtain ⟨hurl, hcase⟩ := processOne_spec (tasks.get ⟨i, h1⟩)
  refine ⟨hurl, ?_⟩
  intro hfail
  rcases hcase with ⟨hs, _⟩ | ⟨_, _, hd⟩
  · rw [hs] at hfail
    cases hfail
  · exact hd

/-- Witness for C1 on a one-element batch. -/
theorem process_repositories_one_outcome_per_url_witness :
    (processRepositories [(cexSyncRepo, RepoBehavior.notCloned CloneOutcome.ok)]).length
      = 1 ∧
    ((processRepositories
        [(cexSyncRepo, RepoBehavior.notCloned CloneOutcome.ok)]).get
      ⟨0, by decide⟩).repository.url = cexSyncRepo.url :=
  ⟨by decide,
   ((process_repositories_one_outcome_per_url
      [(cexSyncRepo, RepoBehavior.notCloned CloneOutcome.ok)]).2 0 (by decide)
      (by decide)).1⟩

/-- C9: after `process_repositories`, each outcome's record has status
`SUCCESS` or `FAILED` — never `PENDING`, `CLONING` or `SYNCING` — and the
outcome's `success` flag is true exactly when the status is `SUCCESS`. -/
theorem process_repositories_final_status
    (tasks : List (Repository × RepoBehavior)) :
    ∀ i (h2 : i < (processRepositories tasks).length),
      (((processRepositories tasks).get ⟨i, h2⟩).repository.status
          = RepositoryStatus.success ∨
       ((processRepositories tasks).get ⟨i, h2⟩).repository.status
          = RepositoryStatus.failed) ∧
      (((processRepositories tasks).get ⟨i, h2⟩).success = true ↔
       ((processRepositories tasks).get ⟨i, h2⟩).repository.status
          = RepositoryStatus.success) := by
  intro i h2
  have h1 : i < tasks.length := by simpa [processRepositories] using h2
  have hg : (processRepositories tasks).get ⟨i, h2⟩
      = processOne (tasks.get ⟨i, h1⟩) := by
    simp [processRepositories]
  rw [hg]
  obtain ⟨-, hcase⟩ := processOne_spec (tasks.get ⟨i, h1⟩)
  rcases hcase with ⟨hs, hst⟩ | ⟨hs, hst, -⟩
  · exact ⟨.inl hst, by rw [hs, hst]; simp⟩
  · exact ⟨.inr hst, by rw [hs, hst]; simp⟩

/-- Witness for C9 on a one-element batch that fails its sync. -/
theorem process_repositories_final_status_witness :
    (((processRepositories [(cexSyncRepo, RepoBehavior.existsLocally cexSyncEnv)]).get
        ⟨0, by decide⟩).repository.status = RepositoryStatus.success ∨
     ((processRepositories [(cexSyncRepo, RepoBehavior.existsLocally cexSyncEnv)]).get
        ⟨0, by decide⟩).repository.status = RepositoryStatus.failed) :=
  (process_repositories_final_status
    [(cexSyncRepo, RepoBehavior.existsLocally cexSyncEnv)] 0 (by decide)).1

/-- C4 (amended): a successful clone yields a success outcome whose record
keeps its url and has status `Success` — and nothing more: the `Repository`
model of `repositories/models.py` declares only `url`, `local_path` and
`status`, so no clone timestamp and no commit hash exist to be set. -/
theorem clone_success_outcome (r : Repository) :
    (processOne (r, RepoBehavior.notCloned CloneOutcome.ok)).success = true ∧
    (processOne (r, RepoBehavior.notCloned CloneOutcome.ok)).repository.status
      = RepositoryStatus.success ∧
    (processOne (r, RepoBehavior.notCloned CloneOutcome.ok)).repository.url = r.url ∧
    (processOne (r, RepoBehavior.notCloned CloneOutcome.ok)).message
      = "Repository cloned successfully to " ++ r.local_path ∧
    Repository.pydanticFields = ["url", "local_path", "status"] ∧
    "commit_hash" ∉ Repository.pydanticFields ∧
    "last_cloned" ∉ Repository.pydanticFields ∧
    "last_updated" ∉ Repository.pydanticFields := by
  refine ⟨?_, ?_, ?_, ?_, rfl, by decide, by decide, by decide⟩ <;>
    simp [processOne, cloneRepository]

/-- C4 counterexample: the success outcome of a concrete clone, in full — a
record of url, local path and `Success` status only; the model has no
`lastClonedAt`, `lastUpdatedAt` or `commitHash` field under any spelling, so
the claimed timestamps and commit hash cannot be carried. -/
theorem clone_success_outcome_cex :
    processOne (cexSyncRepo, RepoBehavior.notCloned CloneOutcome.ok)
      = { repository := { url := "https://h/a.git", local_path := "/base/h_a",
                          status := RepositoryStatus.success },
          success := true,
          message := "Repository cloned successfully to /base/h_a",
          error_details := none } ∧
    "commitHash" ∉ Repository.pydanticFields ∧
    "commit_hash" ∉ Repository.pydanticFields ∧
    "lastClonedAt" ∉ Repository.pydanticFields ∧
    "last_cloned" ∉ Repository.pydanticFields ∧
    "lastUpdatedAt" ∉ Repository.pydanticFields ∧
    "last_updated" ∉ Repository.pydanticFields := by
  refine ⟨by decide, by decide, by decide, by decide, by decide, by decide, by decide⟩

theorem validate_eq_urlsMatchAmended (remote url : String) :
    validateRepositoryRemote (some remote) url = urlsMatchAmended remote url := by
  unfold validateRepositoryRemote urlsMatchAmended stripGitSuffix
  cases h3 : (remote == url) with
  | true =>
      have : remote = url := beq_iff_eq.mp h3
      simp [this]
  | false =>
      cases h1 : strEndsWith remote ".git" <;>
        cases h2 : strEndsWith url ".git" <;>
          simp [h1, h2, h3, beq_eq_decide]

/-- C5 (amended): `_sync_repository` validates the remote "origin" URL
first; the URLs match exactly when they are equal, or when exactly one of
them ends in ".git" and dropping that suffix makes them equal (if both end
in ".git" no stripping is attempted); on a mismatch — or when the remote
cannot be read at all — the sync fails with a `RepositorySyncError` and its
recorded git-action trace is empty: no fetch, checkout or reset happened. -/
theorem sync_validates_remote_before_any_git_action (r : Repository)
    (env : SyncEnv) (hop : env.openError = none)
    (hmm : validateRepositoryRemote env.remoteUrl r.url = false) :
    (∀ remote url, validateRepositoryRemote (some remote) url
        = urlsMatchAmended remote url) ∧
    syncErrKind (syncRepository r env).2.1 = some RepoErrorKind.syncFailed ∧
    (syncRepository r env).2.2 = [] := by
  refine ⟨validate_eq_urlsMatchAmended, ?_, ?_⟩ <;>
    simp [syncRepository, syncBody, hop, hmm, syncErrKind]

/-- C5 counterexample: with remote URL `https://h/a.git.git` against record
URL `https://h/a.git`, the spec's stripping rule declares a match, but the
source's validation does not — the sync fails with `SyncFailed` before any
git action. -/
theorem remote_match_rule_cex :
    urlsMatchSpec "https://h/a.git.git" "https://h/a.git" = true ∧
    validateRepositoryRemote (some "https://h/a.git.git") "https://h/a.git"
      = false ∧
    syncErrKind (syncRepository cexSyncRepo cexSyncEnv).2.1
      = some RepoErrorKind.syncFailed ∧
    (syncRepository cexSyncRepo cexSyncEnv).2.2 = [] := by
  refine ⟨by decide, by decide, by decide, by decide⟩

/-- Witness for C5 at the concrete mismatching environment. -/
theorem sync_validates_remote_witness :
    cexSyncEnv.openError = none ∧
    validateRepositoryRemote cexSyncEnv.remoteUrl cexSyncRepo.url = false ∧
    (syncRepository cexSyncRepo cexSyncEnv).2.2 = [] :=
  ⟨rfl, by decide,
   (sync_validates_remote_before_any_git_action cexSyncRepo cexSyncEnv rfl
     (by decide)).2.2⟩
